import Mathlib

/-!
Verification of the page-interaction layer (`src/script.js`).

Shallow embedding of the client-side script of this repository and proofs of
the specification's testable properties.  JS strings are modelled as Lean
`String` (or `List Char` where character-level mutation matters), JS numbers
that the script only ever uses as integers are modelled as `Nat`, and the
exact-real smoothing arithmetic is modelled over `ℚ`.  DOM side effects are
modelled as explicit state records; a thrown `TypeError` from touching an
absent element is modelled with `Except`.
-/

namespace ScriptJs

/-- JS string viewed as a sequence of characters (used where the code mutates
text character by character). -/
abbrev JStr := List Char

/-- JS `String.prototype.padStart(targetLen, pad)` for a single padding
character: prepends copies of `pad` until the length is at least
`targetLen`. -/
def padStart (s : String) (targetLen : Nat) (pad : Char) : String :=
  (List.replicate (targetLen - s.length) pad).asString ++ s

/-- `formatTime` (script.js lines 10-14): `min = Math.floor(seconds / 60)`,
`sec = Math.floor(seconds % 60)`, rendered as `min ++ ":" ++ sec` with the
seconds padded to two digits.  The script only feeds it non-negative media
times, modelled as `Nat`. -/
def formatTime (seconds : Nat) : String :=
  let min := seconds / 60
  let sec := seconds % 60
  Nat.repr min ++ ":" ++ padStart (Nat.repr sec) 2 '0'

theorem length_asString (l : List Char) : l.asString.length = l.length := rfl

theorem padStart_length (s : String) (pad : Char) (h : s.length ≤ 2) :
    (padStart s 2 pad).length = 2 := by
  simp only [padStart, String.length_append, length_asString, List.length_replicate]
  omega

theorem repr_mod60_length (n : Nat) : (Nat.repr (n % 60)).length ≤ 2 := by
  have h60 : n % 60 < 60 := Nat.mod_lt _ (by decide)
  have hall : ∀ m, m < 60 → (Nat.repr m).length ≤ 2 := by decide
  exact hall _ h60

/-- C4: the time formatter maps a duration in seconds to a
"minutes:seconds" string with the seconds component always zero-padded to
two digits; in particular `formatTime 0 = "0:00"`, `formatTime 65 = "1:05"`,
`formatTime 599 = "9:59"` and `formatTime 3600 = "60:00"`. -/
theorem formatTime_spec :
    formatTime 0 = "0:00" ∧ formatTime 65 = "1:05" ∧ formatTime 599 = "9:59" ∧
      formatTime 3600 = "60:00" ∧
      ∀ n : Nat, ∃ m s, formatTime n = m ++ ":" ++ s ∧ s.length = 2 := by
  refine ⟨rfl, rfl, rfl, rfl, fun n => ?_⟩
  exact ⟨Nat.repr (n / 60), padStart (Nat.repr (n % 60)) 2 '0', rfl,
    padStart_length _ _ (repr_mod60_length n)⟩

/-- One exponential smoothing update from `updateMask`
(script.js lines 64-67): `value += (target - value) * factor`. -/
def smoothStep (target current factor : ℚ) : ℚ :=
  current + (target - current) * factor

/-- Smoothing factor 0.08 used for the spotlight centre (lines 64-65). -/
def spotFactor : ℚ := 8 / 100

/-- Smoothing factor 0.1 used for the spotlight radius (line 67). -/
def radiusFactor : ℚ := 1 / 10

/-- One frame of `updateMask` (script.js lines 62-74) on the numeric state
`(spotX, spotY, radius)` given the latest pointer sample
`(mouseX, mouseY, targetRadius)`. -/
def updateMask (mouseX mouseY targetRadius spotX spotY radius : ℚ) : ℚ × ℚ × ℚ :=
  (smoothStep mouseX spotX spotFactor, smoothStep mouseY spotY spotFactor,
    smoothStep targetRadius radius radiusFactor)

/-- C5: for the spotlight smoothing update with any factor in `(0,1)` and a
constant target, every frame update strictly reduces the distance between
the smoothed value and the target and never overshoots (the signed offset
to the target keeps its sign), for every initial value not already equal to
the target. -/
theorem smoothStep_monotone_no_overshoot (target s f : ℚ) (hf0 : 0 < f)
    (hf1 : f < 1) (hne : s ≠ target) :
    |target - smoothStep target s f| < |target - s| ∧
      0 ≤ (target - smoothStep target s f) * (target - s) := by
  have key : target - smoothStep target s f = (target - s) * (1 - f) := by
    simp only [smoothStep]; ring
  have habs : 0 < |target - s| := abs_pos.mpr (sub_ne_zero.mpr (Ne.symm hne))
  constructor
  · rw [key, abs_mul, abs_of_pos (by linarith : (0:ℚ) < 1 - f)]
    nlinarith [habs, hf0]
  · rw [key]
    nlinarith [sq_nonneg (target - s), hf1]

/-- Witness for C5 at target 10, current value 0, factor 1/2. -/
theorem smoothStep_monotone_no_overshoot_w :
    |(10:ℚ) - smoothStep 10 0 (1/2)| < |(10:ℚ) - 0| ∧
      0 ≤ ((10:ℚ) - smoothStep 10 0 (1/2)) * ((10:ℚ) - 0) :=
  smoothStep_monotone_no_overshoot 10 0 (1/2) (by norm_num) (by norm_num)
    (by norm_num)

/-! ## Typewriter effect (script.js lines 84-132) -/

/-- Mutable state of one typewriter element: the closure variables
`textIndex`, `charIndex`, `isTyping` (lines 96-98) plus the current
`textContent` of the display element. -/
structure TwState where
  textIndex : Nat
  charIndex : Nat
  isTyping : Bool
  display : JStr
deriving DecidableEq, Repr

/-- Outcome of one `tick` (lines 104-126): either another tick is scheduled
with a delay in milliseconds, or the chain returns without rescheduling. -/
inductive TickResult where
  | next (s : TwState) (delayMs : Nat)
  | stop (s : TwState)
deriving DecidableEq, Repr

def TYPING_SPEED : Nat := 120
def DELETING_SPEED : Nat := 60
def PAUSE_AFTER_TYPE : Nat := 1200
def PAUSE_AFTER_DELETE : Nat := 500

/-- One `tick` of the typewriter (script.js lines 104-126).
`currentText = texts[textIndex] || ""`; typing appends
`currentText.charAt(charIndex++)`, deleting assigns
`currentText.substring(0, --charIndex)`; when a delete cycle finishes,
`textIndex` wraps and, with `loop` false and the wrap reaching index 0, the
chain returns without scheduling another tick. -/
def tick (texts : List JStr) (loop : Bool) (s : TwState) : TickResult :=
  let currentText := texts.getD s.textIndex []
  if s.isTyping then
    if s.charIndex < currentText.length then
      .next
        { s with
          display := s.display ++ [(currentText.getD s.charIndex ' ')]
          charIndex := s.charIndex + 1 } TYPING_SPEED
    else
      .next { s with isTyping := false } PAUSE_AFTER_TYPE
  else
    if 0 < s.charIndex then
      .next
        { s with
          display := currentText.take (s.charIndex - 1)
          charIndex := s.charIndex - 1 } DELETING_SPEED
    else
      let ti := (s.textIndex + 1) % texts.length
      if loop = false ∧ ti = 0 then
        .stop { s with isTyping := true, textIndex := ti }
      else
        .next { s with isTyping := true, textIndex := ti } PAUSE_AFTER_DELETE

/-- State reached after `n` ticks of the self-rescheduling timer chain, or
`none` if the chain returned (stopped) strictly before `n` ticks ran. -/
def twSteps (texts : List JStr) (loop : Bool) : Nat → TwState → Option TwState
  | 0, s => some s
  | n + 1, s =>
    match tick texts loop s with
    | .next s2 _ => twSteps texts loop n s2
    | .stop _ => none

/-- Terminal state of the timer chain if it returns within `fuel` ticks,
`none` if it is still scheduled after `fuel` ticks. -/
def twRun (texts : List JStr) (loop : Bool) : Nat → TwState → Option TwState
  | 0, _ => none
  | n + 1, s =>
    match tick texts loop s with
    | .next s2 _ => twRun texts loop n s2
    | .stop s2 => some s2

/-- The state of a typewriter element when `tick()` is first invoked
(line 127): indices 0, typing, with whatever text content the display
element already held. -/
def twInit (d0 : JStr) : TwState := ⟨0, 0, true, d0⟩

/-! ### JSON parsing of the `data-texts` attribute

`initTypewriter` (line 89) runs
`JSON.parse(el.getAttribute("data-texts") || "[]")`.  The parser below
models `JSON.parse` restricted to the shape the typewriter consumes: an
array of strings (with the common escapes; `\b`, `\f` and `\uXXXX` escapes
and non-array JSON documents are rejected rather than parsed — none occur
in this repository's attributes).  A malformed document makes `JSON.parse`
throw, modelled as `Except.error`. -/

def jsonWs (c : Char) : Bool :=
  c == ' ' || c == '\t' || c == '\n' || c == '\r'

def skipWs (l : List Char) : List Char := l.dropWhile jsonWs

/-- Parse the body of a JSON string literal (the opening quote already
consumed); returns the decoded characters and the rest of the input. -/
def parseJsonString : List Char → Except String (JStr × List Char)
  | [] => .error "unterminated string"
  | '"' :: rest => .ok ([], rest)
  | '\\' :: rest =>
    match rest with
    | [] => .error "unterminated string"
    | e :: rest2 =>
      let c? : Option Char :=
        if e = '"' then some '"'
        else if e = '\\' then some '\\'
        else if e = '/' then some '/'
        else if e = 'n' then some '\n'
        else if e = 't' then some '\t'
        else if e = 'r' then some '\r'
        else none
      match c? with
      | some c => do
        let (s, r) ← parseJsonString rest2
        .ok (c :: s, r)
      | none => .error "bad escape"
  | c :: rest => do
    let (s, r) ← parseJsonString rest
    .ok (c :: s, r)

/-- Parse the elements of a non-empty JSON string array, positioned just
after `[` (or after a comma); consumes up to and including the closing
`]`. -/
def parseItems : Nat → List Char → Except String (List JStr × List Char)
  | 0, _ => .error "fuel exhausted"
  | fuel + 1, l =>
    match skipWs l with
    | '"' :: rest => do
      let (s, rest2) ← parseJsonString rest
      match skipWs rest2 with
      | ',' :: rest3 => do
        let (arr, rest4) ← parseItems fuel rest3
        .ok (s :: arr, rest4)
      | ']' :: rest3 => .ok ([s], rest3)
      | _ => .error "expected comma or closing bracket"
    | _ => .error "expected string"

/-- `JSON.parse` of a JSON document that must be an array of strings. -/
def jsonParseStrArray (input : String) : Except String (List JStr) :=
  match skipWs input.toList with
  | '[' :: rest =>
    match skipWs rest with
    | ']' :: rest2 =>
      if skipWs rest2 = [] then .ok [] else .error "trailing characters"
    | _ => do
      let (arr, rest2) ← parseItems (rest.length + 1) rest
      if skipWs rest2 = [] then .ok arr else .error "trailing characters"
  | _ => .error "unexpected token"

/-- Lines 89-91 of `initTypewriter`: the `data-texts` attribute (absent
modelled as `none`) is defaulted with `|| "[]"` (which also replaces the
falsy empty string), then fed to `JSON.parse`; `data-loop` enables looping
only when it is exactly the string `"true"`; an empty parsed list returns
before any tick is scheduled (`.ok none` = feature disabled).  A parse
error escapes `initTypewriter` (`.error`). -/
def initTypewriter (dataTexts : Option String) (dataLoop : Option String) :
    Except String (Option (List JStr × Bool)) := do
  let texts ← jsonParseStrArray
    (match dataTexts with
     | none => "[]"
     | some a => if a = "" then "[]" else a)
  let loop := dataLoop == some "true"
  if texts.length = 0 then .ok none else .ok (some (texts, loop))

/-! ### Single-tick lemmas -/

theorem tick_typing_step (t : JStr) (rest : List JStr) (loop : Bool) (j : Nat)
    (d : JStr) (hj : j < t.length) :
    tick (t :: rest) loop ⟨0, j, true, d⟩ =
      .next ⟨0, j + 1, true, d ++ [(t[j])]⟩ TYPING_SPEED := by
  simp [tick, hj, List.getD_eq_getElem _ _ hj]

theorem tick_type_to_delete (t : JStr) (rest : List JStr) (loop : Bool) (d : JStr) :
    tick (t :: rest) loop ⟨0, t.length, true, d⟩ =
      .next ⟨0, t.length, false, d⟩ PAUSE_AFTER_TYPE := by
  simp [tick]

theorem tick_delete_step (t : JStr) (rest : List JStr) (loop : Bool) (k : Nat)
    (d : JStr) :
    tick (t :: rest) loop ⟨0, k + 1, false, d⟩ =
      .next ⟨0, k, false, t.take k⟩ DELETING_SPEED := by
  simp [tick]

theorem tick_wrap_single (t : JStr) (d : JStr) :
    tick [t] false ⟨0, 0, false, d⟩ = .stop ⟨0, 0, true, d⟩ := by
  simp [tick]

theorem twRun_next (texts : List JStr) (loop : Bool) (n : Nat) (s s2 : TwState)
    (dl : Nat) (h : tick texts loop s = .next s2 dl) :
    twRun texts loop (n + 1) s = twRun texts loop n s2 := by
  simp [twRun, h]

theorem twSteps_next (texts : List JStr) (loop : Bool) (n : Nat) (s s2 : TwState)
    (dl : Nat) (h : tick texts loop s = .next s2 dl) :
    twSteps texts loop (n + 1) s = twSteps texts loop n s2 := by
  simp [twSteps, h]

/-! ### Phase lemmas: a full typing phase and a full deleting phase -/

theorem twRun_typing (t : JStr) (rest : List JStr) (loop : Bool) :
    ∀ (k j n : Nat) (d : JStr), j + k ≤ t.length →
      twRun (t :: rest) loop (k + n) ⟨0, j, true, d⟩ =
        twRun (t :: rest) loop n ⟨0, j + k, true, d ++ (t.drop j).take k⟩
  | 0, j, n, d, _ => by simp
  | k + 1, j, n, d, h => by
    have hj : j < t.length := by omega
    have e1 : k + 1 + n = (k + n) + 1 := by omega
    have hstate : (TwState.mk 0 (j + 1 + k) true
          ((d ++ [(t[j])]) ++ (t.drop (j + 1)).take k)) =
        TwState.mk 0 (j + (k + 1)) true (d ++ (t.drop j).take (k + 1)) := by
      rw [List.drop_eq_getElem_cons hj, List.take_succ_cons, List.append_assoc,
        List.singleton_append]
      have e2 : j + 1 + k = j + (k + 1) := by omega
      rw [e2]
    rw [e1, twRun_next _ _ _ _ _ _ (tick_typing_step t rest loop j d hj),
      twRun_typing t rest loop k (j + 1) n (d ++ [(t[j])]) (by omega), hstate]

theorem twRun_deleting (t : JStr) (rest : List JStr) (loop : Bool) :
    ∀ (k n : Nat) (d : JStr),
      twRun (t :: rest) loop (k + n) ⟨0, k, false, d⟩ =
        twRun (t :: rest) loop n ⟨0, 0, false, if k = 0 then d else []⟩
  | 0, n, d => by simp
  | k + 1, n, d => by
    have e1 : k + 1 + n = (k + n) + 1 := by omega
    rw [e1, twRun_next _ _ _ _ _ _ (tick_delete_step t rest loop k d),
      twRun_deleting t rest loop k n (t.take k)]
    cases k <;> simp

theorem twSteps_typing (t : JStr) (rest : List JStr) (loop : Bool) :
    ∀ (k j n : Nat) (d : JStr), j + k ≤ t.length →
      twSteps (t :: rest) loop (k + n) ⟨0, j, true, d⟩ =
        twSteps (t :: rest) loop n ⟨0, j + k, true, d ++ (t.drop j).take k⟩
  | 0, j, n, d, _ => by simp
  | k + 1, j, n, d, h => by
    have hj : j < t.length := by omega
    have e1 : k + 1 + n = (k + n) + 1 := by omega
    have hstate : (TwState.mk 0 (j + 1 + k) true
          ((d ++ [(t[j])]) ++ (t.drop (j + 1)).take k)) =
        TwState.mk 0 (j + (k + 1)) true (d ++ (t.drop j).take (k + 1)) := by
      rw [List.drop_eq_getElem_cons hj, List.take_succ_cons, List.append_assoc,
        List.singleton_append]
      have e2 : j + 1 + k = j + (k + 1) := by omega
      rw [e2]
    rw [e1, twSteps_next _ _ _ _ _ _ (tick_typing_step t rest loop j d hj),
      twSteps_typing t rest loop k (j + 1) n (d ++ [(t[j])]) (by omega), hstate]

/-- C8: for the typewriter configured with a single-element text list and
`loop = false`, the timer chain returns (terminating, with nothing further
scheduled and hence no further mutation of the element's content) after
exactly one full type-then-delete cycle, i.e. after exactly
`2 * t.length + 2` ticks: it has not yet returned after `2 * t.length + 1`
ticks, and tick `2 * t.length + 2` returns. -/
theorem typewriter_single_noloop_terminates (t d0 : JStr) :
    twRun [t] false (2 * t.length + 2) (twInit d0) =
        some ⟨0, 0, true, if t = [] then d0 else []⟩ ∧
      twRun [t] false (2 * t.length + 1) (twInit d0) = none := by
  constructor
  · have e1 : 2 * t.length + 2 = t.length + ((t.length + 1) + 1) := by omega
    rw [twInit, e1, twRun_typing t [] false t.length 0 ((t.length + 1) + 1) d0 (by omega)]
    simp only [Nat.zero_add, List.drop_zero, List.take_length]
    rw [twRun_next _ _ _ _ _ _ (tick_type_to_delete t [] false (d0 ++ t)),
      twRun_deleting t [] false t.length 1 (d0 ++ t)]
    have : twRun [t] false 1 ⟨0, 0, false,
        if t.length = 0 then d0 ++ t else []⟩ =
        some ⟨0, 0, true, if t.length = 0 then d0 ++ t else []⟩ := by
      rw [show (1 : Nat) = 0 + 1 from rfl]
      simp [twRun, tick_wrap_single]
    rw [this]
    rcases t with _ | ⟨c, t2⟩ <;> simp
  · have e1 : 2 * t.length + 1 = t.length + ((t.length + 0) + 1) := by omega
    rw [twInit, e1, twRun_typing t [] false t.length 0 ((t.length + 0) + 1) d0 (by omega)]
    simp only [Nat.zero_add, List.drop_zero, List.take_length]
    rw [twRun_next _ _ _ _ _ _ (tick_type_to_delete t [] false (d0 ++ t))]
    have hdel := twRun_deleting t [] false t.length 0 (d0 ++ t)
    rw [Nat.add_zero] at hdel
    rw [hdel]
    rfl

/-- C10: for a typewriter whose display element starts with non-empty text
content `d0`, the first typing phase appends the typed characters to `d0`
(after `t.length` ticks the content is `d0 ++ t`), and the first deleting
tick overwrites the whole content with a prefix of the current string
(`t.take (t.length - 1)`), discarding `d0`. -/
theorem typewriter_initial_content (t : JStr) (rest : List JStr) (loop : Bool)
    (d0 : JStr) (hd0 : d0 ≠ []) (ht : t ≠ []) :
    twSteps (t :: rest) loop t.length (twInit d0) =
        some ⟨0, t.length, true, d0 ++ t⟩ ∧
      twSteps (t :: rest) loop (t.length + 2) (twInit d0) =
        some ⟨0, t.length - 1, false, t.take (t.length - 1)⟩ := by
  have htyping : ∀ n : Nat, twSteps (t :: rest) loop (t.length + n) (twInit d0) =
      twSteps (t :: rest) loop n ⟨0, t.length, true, d0 ++ t⟩ := by
    intro n
    rw [twInit, twSteps_typing t rest loop t.length 0 n d0 (by omega)]
    simp only [Nat.zero_add, List.drop_zero, List.take_length]
  constructor
  · rw [show t.length = t.length + 0 from rfl, htyping 0]
    rfl
  · rw [htyping 2,
      show (2 : Nat) = 1 + 1 from rfl,
      twSteps_next _ _ _ _ _ _ (tick_type_to_delete t rest loop (d0 ++ t))]
    obtain ⟨k, hk⟩ : ∃ k, t.length = k + 1 := by
      rcases t with _ | ⟨c, t2⟩
      · exact absurd rfl ht
      · exact ⟨t2.length, rfl⟩
    rw [hk, twSteps_next _ _ _ _ _ _ (tick_delete_step t rest loop k (d0 ++ t))]
    simp [twSteps]

/-- Witness for C10 with texts `["Hi"]`, `loop = false` and initial display
content `"X"`. -/
theorem typewriter_initial_content_w :
    twSteps ["Hi".toList] false ("Hi".toList).length (twInit "X".toList) =
        some ⟨0, ("Hi".toList).length, true, "X".toList ++ "Hi".toList⟩ ∧
      twSteps ["Hi".toList] false (("Hi".toList).length + 2) (twInit "X".toList) =
        some ⟨0, ("Hi".toList).length - 1, false,
          ("Hi".toList).take (("Hi".toList).length - 1)⟩ :=
  typewriter_initial_content "Hi".toList [] false "X".toList (by decide) (by decide)

/-- C2 counterexample: on the malformed serialized-array text `"oops"`,
`initTypewriter` does not yield an empty list — the `JSON.parse` error
escapes. -/
theorem typewriter_malformed_cex :
    initTypewriter (some "oops") none = .error "unexpected token" := rfl

/-- C2 (amended): a missing `data-texts` attribute, an empty one (both
falsy, replaced by `"[]"`), or a well-formed empty array, yield an empty
text list and the feature is disabled for that element (no tick is ever
scheduled, no mutation); malformed serialized-array text instead makes the
`JSON.parse` error escape `initTypewriter`. -/
theorem typewriter_malformed_amended (dataLoop : Option String) :
    initTypewriter none dataLoop = .ok none ∧
      initTypewriter (some "") dataLoop = .ok none ∧
      initTypewriter (some "[]") dataLoop = .ok none :=
  ⟨rfl, rfl, rfl⟩

/-! ## Music player + team card interactions (script.js lines 309-464)

The player closure state (lines 317-319) together with the observable DOM
state it mutates.  An `Audio` object is modelled as a numeric handle,
allocated from the counter `nextHandle`; `live` is the list of handles that
have been created and not yet torn down (paused, rewound and dereferenced
by `stopAndHidePlayer`), so "at most one track handle is live" is
`live.length ≤ 1`.  Per-card CSS classes `animate` / `show-text` /
`closing` are the card's open/close visual state; the deferred toggles
(`show-text` after 1200ms, removal of `closing` after 1000ms) are
asynchronous and are not part of the state observed immediately after a
call completes.  Audio events (`loadedmetadata`, `ended`), per-handle
volume and the caught autoplay rejection (line 351) have no synchronous
effect on this state and are not modelled. -/

structure CardFlags where
  animate : Bool
  showText : Bool
  closing : Bool
deriving DecidableEq, Repr

structure PState where
  currentAudio : Option Nat
  isPlaying : Bool
  activeCard : Option Nat
  playerHidden : Bool
  playPauseText : String
  songTitleText : String
  timeText : String
  progressValue : Nat
  cards : Nat → CardFlags
  nextHandle : Nat
  live : List Nat

/-- `stopAndHidePlayer` (lines 326-336): pause, rewind and release the
current handle if any, hide the player, reset the play/pause glyph and
clear the active-card reference. -/
def stopAndHidePlayer (s : PState) : PState :=
  let s1 :=
    match s.currentAudio with
    | some h => { s with live := s.live.erase h, currentAudio := none }
    | none => s
  { s1 with
    playerHidden := true
    isPlaying := false
    playPauseText := "▶"
    activeCard := none }

/-- `updateProgress` (lines 376-383), the one synchronous invocation at the
end of `playCardMusic`: the new track's `currentTime` is 0 and its
`duration` still `NaN`, so `progress || 0` writes 0 and the time label
shows `0:00 / NaN:NaN`. -/
def updateProgress (s : PState) : PState :=
  if s.currentAudio.isSome && s.isPlaying then
    { s with progressValue := 0, timeText := "0:00 / NaN:NaN" }
  else s

/-- `playCardMusic` (lines 343-371): tear down any current track, mark the
card active, allocate and play a fresh handle, reveal the player UI, derive
the title from the path's last segment, and run one progress update. -/
def playCardMusic (s : PState) (card : Nat) (src : String) : PState :=
  let s1 := stopAndHidePlayer s
  let s2 := { s1 with activeCard := some card }
  let h := s2.nextHandle
  let s3 :=
    { s2 with
      currentAudio := some h
      live := s2.live ++ [h]
      nextHandle := h + 1
      isPlaying := true
      playerHidden := false
      songTitleText := (src.splitOn "/").getLastD ""
      playPauseText := "⏸" }
  updateProgress s3

/-- The close branch of `handleCardClick` (lines 409-421, the spec's
`closeCard`): stop the audio, then reverse the card's open visual state
(`show-text` and `animate` removed, `closing` added; its deferred removal
after 1000ms is asynchronous). -/
def closeCard (s : PState) (card : Nat) : PState :=
  let s1 := stopAndHidePlayer s
  { s1 with cards := fun i => if i = card then ⟨false, false, true⟩ else s1.cards i }

/-- Steps 2 and 3 of the open branch of `handleCardClick`
(lines 398-407), applied after any previously active card has been closed:
play the music if the card has a truthy `data-music` attribute (both a
missing attribute and the empty string are falsy at line 399), then add the
`animate` class (the `show-text` toggle at line 406 is deferred by
1200ms). -/
def openCardWith (musicAttr : Nat → Option String) (s1 : PState) (card : Nat) :
    PState :=
  let s2 :=
    match musicAttr card with
    | some src => if src = "" then s1 else playCardMusic s1 card src
    | none => s1
  { s2 with cards := fun i =>
      if i = card then { s2.cards i with animate := true } else s2.cards i }

/-- `handleCardClick` (lines 389-422) with explicit recursion fuel: the
self-call `handleCardClick(activeCard)` (line 395) happens at most once per
click, so fuel 2 is exact (`handleCardClickFuel_two` below). -/
def handleCardClickFuel (musicAttr : Nat → Option String) :
    Nat → PState → Nat → PState
  | 0, s, _ => s
  | fuel + 1, s, card =>
    if (s.cards card).animate then
      closeCard s card
    else
      openCardWith musicAttr
        (match s.activeCard with
         | some a => if a = card then s else handleCardClickFuel musicAttr fuel s a
         | none => s) card

/-- One card click, as dispatched by the container click listener
(lines 428-439). -/
def handleCardClick (musicAttr : Nat → Option String) (s : PState) (card : Nat) :
    PState :=
  handleCardClickFuel musicAttr 2 s card

/-- Player state at page load: no audio, no active card, player hidden. -/
def initPState : PState :=
  { currentAudio := none, isPlaying := false, activeCard := none,
    playerHidden := true, playPauseText := "▶", songTitleText := "",
    timeText := "", progressValue := 0, cards := fun _ => ⟨false, false, false⟩,
    nextHandle := 0, live := [] }

theorem handleCardClickFuel_succ (musicAttr : Nat → Option String) (fuel : Nat)
    (s : PState) (card : Nat) :
    handleCardClickFuel musicAttr (fuel + 1) s card =
      if (s.cards card).animate then
        closeCard s card
      else
        openCardWith musicAttr
          (match s.activeCard with
           | some a => if a = card then s else handleCardClickFuel musicAttr fuel s a
           | none => s) card := rfl

/-- Fuel adequacy: when the click handler recurses on the active card `a`,
the state still has `activeCard = some a`, so the guard
`activeCard !== card` fails inside the recursive call and no deeper
recursion happens; any fuel of at least 1 gives the inner call the same
result. -/
theorem handleCardClickFuel_self (musicAttr : Nat → Option String) (k : Nat)
    (s : PState) (a : Nat) (h : s.activeCard = some a) :
    handleCardClickFuel musicAttr (k + 1) s a =
      handleCardClickFuel musicAttr 1 s a := by
  rw [handleCardClickFuel_succ, show (1 : Nat) = 0 + 1 from rfl,
    handleCardClickFuel_succ]
  simp [h]

/-- Fuel adequacy for the outer call: fuel 2 is enough, any larger fuel
computes the same click. -/
theorem handleCardClickFuel_two (musicAttr : Nat → Option String) (n : Nat)
    (s : PState) (card : Nat) :
    handleCardClickFuel musicAttr (n + 2) s card =
      handleCardClickFuel musicAttr 2 s card := by
  rw [show n + 2 = (n + 1) + 1 from rfl, handleCardClickFuel_succ,
    show (2 : Nat) = 1 + 1 from rfl, handleCardClickFuel_succ]
  rcases hact : s.activeCard with _ | a
  · simp [hact]
  · by_cases hac : a = card
    · simp [hact, hac]
    · simp only [hact, if_neg hac]
      rw [handleCardClickFuel_self musicAttr n s a hact]

/-- The handle-ownership discipline of the player: the live handles are
exactly the one referenced by `currentAudio` (if any). -/
def LiveInv (s : PState) : Prop := s.live = s.currentAudio.toList

theorem stopAndHidePlayer_spec (s : PState) (h : LiveInv s) :
    (stopAndHidePlayer s).currentAudio = none ∧ (stopAndHidePlayer s).live = [] ∧
      (stopAndHidePlayer s).activeCard = none ∧
      (stopAndHidePlayer s).nextHandle = s.nextHandle ∧
      (stopAndHidePlayer s).cards = s.cards := by
  rcases hs : s.currentAudio with _ | h2 <;>
    rw [LiveInv, hs] at h <;>
    simp [stopAndHidePlayer, hs, h]

theorem closeCard_spec (s : PState) (c : Nat) (h : LiveInv s) :
    (closeCard s c).currentAudio = none ∧ (closeCard s c).live = [] ∧
      (closeCard s c).activeCard = none ∧
      (closeCard s c).nextHandle = s.nextHandle ∧
      (closeCard s c).cards = fun i =>
        if i = c then ⟨false, false, true⟩ else s.cards i := by
  obtain ⟨h1, h2, h3, h4, h5⟩ := stopAndHidePlayer_spec s h
  simp [closeCard, h1, h2, h3, h4, h5]

theorem playCardMusic_spec (s : PState) (c : Nat) (src : String) (h : LiveInv s) :
    (playCardMusic s c src).currentAudio = some s.nextHandle ∧
      (playCardMusic s c src).live = [s.nextHandle] ∧
      (playCardMusic s c src).activeCard = some c ∧
      (playCardMusic s c src).nextHandle = s.nextHandle + 1 ∧
      (playCardMusic s c src).cards = s.cards := by
  obtain ⟨h1, h2, h3, h4, h5⟩ := stopAndHidePlayer_spec s h
  simp [playCardMusic, updateProgress, h1, h2, h3, h4, h5]

theorem stopAndHidePlayer_inv (s : PState) (h : LiveInv s) :
    LiveInv (stopAndHidePlayer s) := by
  obtain ⟨h1, h2, _, _, _⟩ := stopAndHidePlayer_spec s h
  rw [LiveInv, h1, h2]
  rfl

theorem closeCard_inv (s : PState) (c : Nat) (h : LiveInv s) :
    LiveInv (closeCard s c) := by
  obtain ⟨h1, h2, _, _, _⟩ := closeCard_spec s c h
  rw [LiveInv, h1, h2]
  rfl

theorem playCardMusic_inv (s : PState) (c : Nat) (src : String) (h : LiveInv s) :
    LiveInv (playCardMusic s c src) := by
  obtain ⟨h1, h2, _, _, _⟩ := playCardMusic_spec s c src h
  rw [LiveInv, h1, h2]
  rfl

theorem openCardWith_inv (musicAttr : Nat → Option String) (s : PState) (c : Nat)
    (h : LiveInv s) : LiveInv (openCardWith musicAttr s c) := by
  rcases hm : musicAttr c with _ | src
  · simpa [LiveInv, openCardWith, hm] using h
  · by_cases hsrc : src = ""
    · simpa [LiveInv, openCardWith, hm, hsrc] using h
    · have := playCardMusic_inv s c src h
      simpa [LiveInv, openCardWith, hm, hsrc] using this

theorem handleCardClickFuel_inv (musicAttr : Nat → Option String) :
    ∀ (fuel : Nat) (s : PState) (c : Nat), LiveInv s →
      LiveInv (handleCardClickFuel musicAttr fuel s c)
  | 0, _, _, h => h
  | fuel + 1, s, c, h => by
    rw [handleCardClickFuel_succ]
    by_cases hanim : (s.cards c).animate
    · simpa [hanim] using closeCard_inv s c h
    · simp only [hanim, if_false, Bool.false_eq_true]
      refine openCardWith_inv musicAttr _ c ?_
      rcases hact : s.activeCard with _ | a
      · exact h
      · by_cases hac : a = c
        · simp [hac, h]
        · simpa [hac] using handleCardClickFuel_inv musicAttr fuel s a h

theorem handleCardClick_inv (musicAttr : Nat → Option String) (s : PState)
    (c : Nat) (h : LiveInv s) : LiveInv (handleCardClick musicAttr s c) :=
  handleCardClickFuel_inv musicAttr 2 s c h

/-- C1: for every sequence of card clicks from page load, at most one audio
track handle is live immediately after each click completes: opening a new
card always tears the previous track down (`stopAndHidePlayer`) before
`new Audio` creates the next handle. -/
theorem player_at_most_one_live_track (musicAttr : Nat → Option String)
    (clicks : List Nat) :
    ((clicks.foldl (handleCardClick musicAttr) initPState).live).length ≤ 1 := by
  suffices h : ∀ (l : List Nat) (s : PState), LiveInv s →
      LiveInv (l.foldl (handleCardClick musicAttr) s) by
    have hres := h clicks initPState rfl
    rw [LiveInv] at hres
    rw [hres]
    rcases (clicks.foldl (handleCardClick musicAttr) initPState).currentAudio <;> simp
  intro l
  induction l with
  | nil => exact fun s hs => hs
  | cons c l ih =>
    intro s hs
    exact ih _ (handleCardClick_inv musicAttr s c hs)

/-- C7: `closeCard` is idempotent — performing the close operation twice in
a row yields the same player and card state as performing it once (audio
released, player hidden, indicator reset, active card cleared, card visual
state reversed). -/
theorem closeCard_idempotent (s : PState) (c : Nat) :
    closeCard (closeCard s c) c = closeCard s c := by
  rcases hs : s.currentAudio with _ | h <;>
  · simp only [closeCard, stopAndHidePlayer, hs]
    congr 1
    funext i
    by_cases hic : i = c <;> simp [hic]

/-- C6: if `X` is the open active card ( `animate` set) and a different
card `Y` with a truthy `data-music` attribute is clicked, `X` is closed as
a side effect (`animate` removed) and `Y` becomes the sole active card,
its freshly allocated track being the only live handle. -/
theorem open_second_card_closes_first (musicAttr : Nat → Option String)
    (s : PState) (X Y : Nat) (src : String) (hInv : LiveInv s) (hXY : X ≠ Y)
    (hact : s.activeCard = some X) (hXanim : (s.cards X).animate = true)
    (hYanim : (s.cards Y).animate = false) (hsrc : musicAttr Y = some src)
    (hne : src ≠ "") :
    ((handleCardClick musicAttr s Y).cards X).animate = false ∧
      (handleCardClick musicAttr s Y).activeCard = some Y ∧
      (handleCardClick musicAttr s Y).currentAudio = some s.nextHandle ∧
      (handleCardClick musicAttr s Y).live = [s.nextHandle] ∧
      ((handleCardClick musicAttr s Y).cards Y).animate = true := by
  have hY : handleCardClick musicAttr s Y =
      openCardWith musicAttr (closeCard s X) Y := by
    rw [handleCardClick, show (2 : Nat) = 1 + 1 from rfl, handleCardClickFuel_succ]
    simp only [hYanim, Bool.false_eq_true, if_false, hact]
    rw [if_neg (fun hxy => hXY hxy), show (1 : Nat) = 0 + 1 from rfl,
      handleCardClickFuel_succ]
    simp [hXanim]
  obtain ⟨c1, c2, c3, c4, c5⟩ := closeCard_spec s X hInv
  have hcInv : LiveInv (closeCard s X) := closeCard_inv s X hInv
  obtain ⟨p1, p2, p3, p4, p5⟩ :=
    playCardMusic_spec (closeCard s X) Y src hcInv
  rw [hY, openCardWith]
  simp only [hsrc, hne, if_neg hne]
  refine ⟨?_, ?_, ?_, ?_, ?_⟩
  · simp [p5, c5, c4, if_neg hXY]
  · simp [p3]
  · simp [p1, c4]
  · simp [p2, c4]
  · simp [p5, c5]

/-- A concrete `data-music` attribute map: only card 1 has a track. -/
def exMusicAttr : Nat → Option String :=
  fun i => if i = 1 then some "audio/track.mp3" else none

/-- A concrete player state in which card 0 is open and active (no track
playing, e.g. card 0 had no `data-music`). -/
def exOpenCard0 : PState :=
  { initPState with
    activeCard := some 0
    cards := fun i => if i = 0 then ⟨true, false, false⟩ else ⟨false, false, false⟩ }

/-- Witness for C6: from `exOpenCard0`, clicking card 1 closes card 0 and
makes card 1 the sole active card with the only live handle. -/
theorem open_second_card_closes_first_w :
    ((handleCardClick exMusicAttr exOpenCard0 1).cards 0).animate = false ∧
      (handleCardClick exMusicAttr exOpenCard0 1).activeCard = some 1 ∧
      (handleCardClick exMusicAttr exOpenCard0 1).currentAudio = some 0 ∧
      (handleCardClick exMusicAttr exOpenCard0 1).live = [0] ∧
      ((handleCardClick exMusicAttr exOpenCard0 1).cards 1).animate = true :=
  open_second_card_closes_first exMusicAttr exOpenCard0 0 1 "audio/track.mp3" rfl
    (by decide) rfl (by decide) (by decide) rfl (by decide)

/-! ## Element-presence instrumentation

`document.getElementById` / `querySelector` yield `null` for an absent
element, and touching a property of `null` throws a `TypeError`.  The
variants below thread element presence explicitly and model such a throw
as `Except.error`; on a throw, mutations already performed are not
retained by the model (no claim inspects post-throw state). -/

inductive DomError where
  | typeError (elem : String)
deriving DecidableEq, Repr

/-- Property access on a possibly-`null` element. -/
def access (present : Bool) (elem : String) : Except DomError Unit :=
  if present then .ok () else .error (.typeError elem)

/-- Presence of the DOM elements the music player controller touches
(lines 310-315), plus the cards' `data-music` attributes. -/
structure PDom where
  musicPlayer : Bool
  playPauseBtn : Bool
  progressBar : Bool
  timeDisplay : Bool
  songTitle : Bool
  musicAttr : Nat → Option String

/-- `stopAndHidePlayer` with element accesses: `musicPlayer.classList`
(line 332) and `playPauseBtn.textContent` (line 334). -/
def stopAndHidePlayerE (d : PDom) (s : PState) : Except DomError PState := do
  let s1 :=
    match s.currentAudio with
    | some h => { s with live := s.live.erase h, currentAudio := none }
    | none => s
  let _ ← access d.musicPlayer "music-player"
  let _ ← access d.playPauseBtn "play-pause"
  pure
    { s1 with
      playerHidden := true
      isPlaying := false
      playPauseText := "▶"
      activeCard := none }

/-- `updateProgress` with element accesses: `progressBar.value` (line 379)
and `timeDisplay.textContent` (line 380). -/
def updateProgressE (d : PDom) (s : PState) : Except DomError PState :=
  if s.currentAudio.isSome && s.isPlaying then do
    let _ ← access d.progressBar "progress-bar"
    let _ ← access d.timeDisplay "time"
    pure { s with progressValue := 0, timeText := "0:00 / NaN:NaN" }
  else pure s

/-- `playCardMusic` with element accesses: beyond those of
`stopAndHidePlayer`, it touches `musicPlayer.classList` (line 355),
`songTitle.textContent` (line 356) and `playPauseBtn.textContent`
(line 357) with no null guard, then runs `updateProgress` (line 370). -/
def playCardMusicE (d : PDom) (s : PState) (card : Nat) (src : String) :
    Except DomError PState := do
  let s1 ← stopAndHidePlayerE d s
  let s2 := { s1 with activeCard := some card }
  let h := s2.nextHandle
  let s3 :=
    { s2 with
      currentAudio := some h
      live := s2.live ++ [h]
      nextHandle := h + 1
      isPlaying := true }
  let _ ← access d.musicPlayer "music-player"
  let s4 := { s3 with playerHidden := false }
  let _ ← access d.songTitle "song-title"
  let s5 := { s4 with songTitleText := (src.splitOn "/").getLastD "" }
  let _ ← access d.playPauseBtn "play-pause"
  let s6 := { s5 with playPauseText := "⏸" }
  updateProgressE d s6

/-- The close branch of `handleCardClick`, instrumented. -/
def closeCardE (d : PDom) (s : PState) (card : Nat) : Except DomError PState := do
  let s1 ← stopAndHidePlayerE d s
  pure { s1 with cards := fun i =>
    if i = card then ⟨false, false, true⟩ else s1.cards i }

/-- The open branch (steps 2 and 3), instrumented. -/
def openCardWithE (d : PDom) (s1 : PState) (card : Nat) :
    Except DomError PState := do
  let s2 ←
    match d.musicAttr card with
    | some src => if src = "" then pure s1 else playCardMusicE d s1 card src
    | none => pure s1
  pure { s2 with cards := fun i =>
    if i = card then { s2.cards i with animate := true } else s2.cards i }

/-- `handleCardClick`, instrumented, with the same recursion fuel. -/
def handleCardClickFuelE (d : PDom) :
    Nat → PState → Nat → Except DomError PState
  | 0, s, _ => pure s
  | fuel + 1, s, card =>
    if (s.cards card).animate then
      closeCardE d s card
    else do
      let s1 ←
        match s.activeCard with
        | some a =>
          if a = card then pure s else handleCardClickFuelE d fuel s a
        | none => pure s
      openCardWithE d s1 card

def handleCardClickE (d : PDom) (s : PState) (card : Nat) :
    Except DomError PState :=
  handleCardClickFuelE d 2 s card

/-- Line 321: the whole controller returns (registering no listeners) when
`musicPlayer` or `playPauseBtn` is absent. -/
def musicPlayerEnabled (d : PDom) : Bool := d.musicPlayer && d.playPauseBtn

/-- A click event on a card: dispatched to `handleCardClick` only if the
controller initialised (otherwise no listener exists and nothing runs). -/
def cardClickEvent (d : PDom) (s : PState) (card : Nat) :
    Except DomError PState :=
  if musicPlayerEnabled d then handleCardClickE d s card else pure s

@[simp] theorem except_ok_bind {ε α β : Type} (a : α) (f : α → Except ε β) :
    (Except.ok a : Except ε α) >>= f = f a := rfl

@[simp] theorem except_pure_eq_ok {ε α : Type} (a : α) :
    (pure a : Except ε α) = Except.ok a := rfl

/-- `PDom` with every element present. -/
def allPDom (musicAttr : Nat → Option String) : PDom :=
  ⟨true, true, true, true, true, musicAttr⟩

@[simp] theorem allPDom_musicPlayer (m : Nat → Option String) :
    (allPDom m).musicPlayer = true := rfl

@[simp] theorem allPDom_playPauseBtn (m : Nat → Option String) :
    (allPDom m).playPauseBtn = true := rfl

@[simp] theorem allPDom_progressBar (m : Nat → Option String) :
    (allPDom m).progressBar = true := rfl

@[simp] theorem allPDom_timeDisplay (m : Nat → Option String) :
    (allPDom m).timeDisplay = true := rfl

@[simp] theorem allPDom_songTitle (m : Nat → Option String) :
    (allPDom m).songTitle = true := rfl

@[simp] theorem allPDom_musicAttr (m : Nat → Option String) :
    (allPDom m).musicAttr = m := rfl

@[simp] theorem access_true (elem : String) :
    access true elem = .ok () := rfl

/-! ### With all elements present, the instrumented controller computes the
pure model and never throws. -/

theorem stopAndHidePlayerE_all (musicAttr : Nat → Option String) (s : PState) :
    stopAndHidePlayerE (allPDom musicAttr) s = .ok (stopAndHidePlayer s) := by
  rcases hs : s.currentAudio with _ | h <;>
    simp [stopAndHidePlayerE, stopAndHidePlayer, hs]

theorem updateProgressE_all (musicAttr : Nat → Option String) (s : PState) :
    updateProgressE (allPDom musicAttr) s = .ok (updateProgress s) := by
  by_cases hp : s.currentAudio.isSome && s.isPlaying <;>
    simp [updateProgressE, updateProgress, hp]

theorem playCardMusicE_all (musicAttr : Nat → Option String) (s : PState)
    (card : Nat) (src : String) :
    playCardMusicE (allPDom musicAttr) s card src =
      .ok (playCardMusic s card src) := by
  rw [playCardMusicE, stopAndHidePlayerE_all]
  simp only [except_ok_bind, allPDom_musicPlayer, allPDom_songTitle,
    allPDom_playPauseBtn, access_true]
  rw [updateProgressE_all]
  rfl

theorem closeCardE_all (musicAttr : Nat → Option String) (s : PState)
    (card : Nat) :
    closeCardE (allPDom musicAttr) s card = .ok (closeCard s card) := by
  rw [closeCardE, stopAndHidePlayerE_all]
  rfl

theorem openCardWithE_all (musicAttr : Nat → Option String) (s : PState)
    (card : Nat) :
    openCardWithE (allPDom musicAttr) s card =
      .ok (openCardWith musicAttr s card) := by
  rcases hm : musicAttr card with _ | src
  · simp [openCardWithE, openCardWith, hm]
  · by_cases hsrc : src = ""
    · simp [openCardWithE, openCardWith, hm, hsrc]
    · simp only [openCardWithE, openCardWith, allPDom_musicAttr, hm,
        if_neg hsrc]
      rw [playCardMusicE_all]
      rfl

theorem handleCardClickFuelE_all (musicAttr : Nat → Option String) :
    ∀ (fuel : Nat) (s : PState) (card : Nat),
      handleCardClickFuelE (allPDom musicAttr) fuel s card =
        .ok (handleCardClickFuel musicAttr fuel s card)
  | 0, _, _ => rfl
  | fuel + 1, s, card => by
    rw [handleCardClickFuelE, handleCardClickFuel_succ]
    by_cases hanim : (s.cards card).animate
    · simp only [hanim, if_true]
      exact closeCardE_all musicAttr s card
    · simp only [hanim, if_false, Bool.false_eq_true]
      rcases hact : s.activeCard with _ | a
      · simp only [except_ok_bind, except_pure_eq_ok]
        exact openCardWithE_all musicAttr s card
      · by_cases hac : a = card
        · simp only [hac, if_pos rfl, except_ok_bind, except_pure_eq_ok]
          exact openCardWithE_all musicAttr s card
        · simp only [if_neg hac]
          rw [handleCardClickFuelE_all musicAttr fuel s a]
          simp only [except_ok_bind]
          exact openCardWithE_all musicAttr _ card

/-- With every element present a card click never throws and computes the
pure player model. -/
theorem cardClickEvent_all (musicAttr : Nat → Option String) (s : PState)
    (card : Nat) :
    cardClickEvent (allPDom musicAttr) s card =
      .ok (handleCardClick musicAttr s card) := by
  rw [cardClickEvent, if_pos (by rfl), handleCardClickE,
    handleCardClickFuelE_all]
  rfl

/-! ## Profile overlay (script.js lines 471-597) -/

/-- Presence of the DOM elements the overlay controller looks up
(lines 473-488). -/
structure ODom where
  overlay : Bool
  profileModel : Bool
  profileName : Bool
  profileRole : Bool
  bioBday : Bool
  bioContact : Bool
  bioSpecial : Bool
  statGender : Bool
  statAge : Bool
  statHeight : Bool
  statWeight : Bool

structure MemberStats where
  gender : String
  age : String
  height : String
  weight : String
deriving DecidableEq, Repr

/-- One record of the static `memberData` table (lines 490-541), with the
source's field names. -/
structure MemberRec where
  model : String
  role : String
  Bday : String
  Contact : String
  Specialty : String
  stats : MemberStats
deriving DecidableEq, Repr

/-- The static `memberData` lookup table (lines 490-541). -/
def memberData (name : String) : Option MemberRec :=
  if name = "Angelo Jesus Y. Caballero" then
    some ⟨"model/source/Caballero.glb", "| FULL STACK DEVELOPER |", "03/18/2006",
      "ajcaballero@kld.edu.ph", "FullStack", ⟨"Male", "19", "175cm", "60kg"⟩⟩
  else if name = "Alexandra Lykemae T. Concepcion" then
    some ⟨"model/source/Concepcion.glb", "| PROJECT MANAGER |", "09/08/2005",
      "alconcepcion@kld.edu.ph", "Support specialist",
      ⟨"Female", "20", "150cm", "50kg"⟩⟩
  else if name = "Shairil Kriztel O. Capungcol" then
    some ⟨"model/source/Capungcol.glb", "| BACK END DEVELOPER |", "03/18/2006",
      "skcapungcol@kld.edu.ph", "Back-end", ⟨"Female", "20", "149cm", "49kg"⟩⟩
  else if name = "Kurt Andrew F. Dapat" then
    some ⟨"model/source/Dapat.glb", "| DESIGNER |", "03/18/2006",
      "kadapat@kld.edu.ph", "UI/UX Design", ⟨"Male", "18", "154cm", "43kg"⟩⟩
  else if name = "Jovan C. Certifico" then
    some ⟨"model/source/Certifico.glb", "| FRONT END DEVELOPER |", "03/18/2006",
      "jcertifico@kld.edu.ph", "Front-end", ⟨"Male", "19", "162cm", "53kg"⟩⟩
  else none

/-- Observable overlay state: the text/attribute content of the populated
elements and whether the overlay carries the `active` class. -/
structure OverlayState where
  profileNameText : String
  profileRoleText : String
  profileModelSrc : String
  bioBdayText : String
  bioContactText : String
  bioSpecialText : String
  statGenderText : String
  statAgeText : String
  statHeightText : String
  statWeightText : String
  active : Bool
deriving DecidableEq, Repr

/-- `openOverlay` (lines 547-571): look `name` up in `memberData`; return
silently if the record or the overlay element is absent (line 550); then
write `profileName.textContent` (line 553) and `profileRole.textContent`
(line 554) with no null guard, update the guarded elements (lines 556-568),
and mark the overlay active (line 570). -/
def openOverlayE (d : ODom) (s : OverlayState) (name : String) :
    Except DomError OverlayState :=
  match memberData name with
  | none => .ok s
  | some data =>
    if d.overlay = false then .ok s
    else do
      let _ ← access d.profileName "profileName"
      let s1 := { s with profileNameText := name }
      let _ ← access d.profileRole "profileRole"
      let s2 := { s1 with profileRoleText := data.role }
      let s3 :=
        if d.profileModel then { s2 with profileModelSrc := data.model } else s2
      let s4 := if d.bioBday then { s3 with bioBdayText := data.Bday } else s3
      let s5 :=
        if d.bioContact then { s4 with bioContactText := data.Contact } else s4
      let s6 :=
        if d.bioSpecial then { s5 with bioSpecialText := data.Specialty } else s5
      let s7 :=
        if d.statGender then { s6 with statGenderText := data.stats.gender }
        else s6
      let s8 := if d.statAge then { s7 with statAgeText := data.stats.age } else s7
      let s9 :=
        if d.statHeight then { s8 with statHeightText := data.stats.height }
        else s8
      let s10 :=
        if d.statWeight then { s9 with statWeightText := data.stats.weight }
        else s9
      pure { s10 with active := true }

/-- `ODom` with every element present. -/
def allODom : ODom := ⟨true, true, true, true, true, true, true, true, true, true, true⟩

/-- C9: with the full overlay markup present, `openOverlay` on a name in
the static record table populates the overlay from the record and marks it
active — for "Angelo Jesus Y. Caballero" the role text becomes
"| FULL STACK DEVELOPER |" and the age stat "19" — while a miss such as
"Unknown Person" is a no-op leaving all prior overlay state unchanged. -/
theorem openOverlay_lookup_spec (s : OverlayState) :
    (∃ s2, openOverlayE allODom s "Angelo Jesus Y. Caballero" = .ok s2 ∧
      s2.profileRoleText = "| FULL STACK DEVELOPER |" ∧
      s2.statAgeText = "19" ∧ s2.active = true) ∧
    openOverlayE allODom s "Unknown Person" = .ok s := by
  refine ⟨⟨{ s with
      profileNameText := "Angelo Jesus Y. Caballero"
      profileRoleText := "| FULL STACK DEVELOPER |"
      profileModelSrc := "model/source/Caballero.glb"
      bioBdayText := "03/18/2006"
      bioContactText := "ajcaballero@kld.edu.ph"
      bioSpecialText := "FullStack"
      statGenderText := "Male"
      statAgeText := "19"
      statHeightText := "175cm"
      statWeightText := "60kg"
      active := true }, ?_, rfl, rfl, rfl⟩, ?_⟩ <;> rfl

/-! ## C3: silent degradation on missing elements -/

/-- A DOM in which the player container and the play/pause button exist
(so the controller initialises) but the `song-title` element is absent;
every card carries a `data-music` attribute. -/
def noTitleDom : PDom := ⟨true, true, true, true, false, fun _ => some "m.mp3"⟩

/-- C3 counterexample: with `song-title` absent (all guarded elements
present), a first click on card 0 is not a silent no-op — line 356
(`songTitle.textContent = ...`) throws a `TypeError`. -/
theorem controller_missing_element_cex :
    cardClickEvent noTitleDom initPState 0 = .error (.typeError "song-title") :=
  rfl

/-- C3 (amended): each controller guards only specific elements.  The music
player controller disables itself (all clicks become silent no-ops, nothing
throws) exactly when `music-player` or `play-pause` is absent, and
`openOverlay` is a silent no-op whenever the overlay container is absent
(or the name misses the table); but absence of an unguarded element (e.g.
`song-title`, `progress-bar`, `time` for the player; `profileName`,
`profileRole` for the overlay) makes the corresponding operation throw, as
`controller_missing_element_cex` shows. -/
theorem controller_guard_amended :
    (∀ (d : PDom) (s : PState) (card : Nat), musicPlayerEnabled d = false →
      cardClickEvent d s card = .ok s) ∧
    (∀ (d : ODom) (s : OverlayState) (name : String), d.overlay = false →
      openOverlayE d s name = .ok s) := by
  constructor
  · intro d s card hd
    rw [cardClickEvent, hd]
    rfl
  · intro d s name hd
    rw [openOverlayE]
    rcases memberData name with _ | rec
    · rfl
    · simp [hd]

/-- A player DOM whose `play-pause` button is absent: the controller
returns at line 321 and registers nothing. -/
def noBtnDom : PDom := ⟨true, false, true, true, true, fun _ => some "m.mp3"⟩

/-- An overlay DOM whose overlay container is absent. -/
def noOverlayODom : ODom :=
  ⟨false, true, true, true, true, true, true, true, true, true, true⟩

/-- An arbitrary prior overlay state used by the witnesses. -/
def exOverlayState : OverlayState :=
  ⟨"", "", "", "", "", "", "", "", "", "", false⟩

/-- Witness for the amended C3 at concrete inputs. -/
theorem controller_guard_amended_w :
    cardClickEvent noBtnDom initPState 0 = .ok initPState ∧
      openOverlayE noOverlayODom exOverlayState "Angelo Jesus Y. Caballero" =
        .ok exOverlayState :=
  ⟨controller_guard_amended.1 noBtnDom initPState 0 rfl,
    controller_guard_amended.2 noOverlayODom exOverlayState
      "Angelo Jesus Y. Caballero" rfl⟩

end ScriptJs
